import Mathlib

/-!
Verification of the geom-core mesh analysis engine (madfam-io/geom-core).

Shallow embedding of the C++ sources:
  * `include/geom-core/Vector3.hpp`  — `Vector3` (here `Vec3`, since Mathlib
    already has a `Vector3`), `Matrix3`
  * `include/geom-core/Mesh.hpp`, `src/Mesh.cpp` — `Mesh`, STL loader, queries
  * `include/geom-core/Spatial.hpp`, `src/Spatial.cpp` — AABB, ray tests, `AABBTree`
  * `include/geom-core/Analyzer.hpp`, `src/Analyzer.cpp` — printability analysis

Modelling conventions:
  * C++ `double` arithmetic is modelled exactly (no rounding): stored mesh
    coordinates, which are decoded from IEEE-754 binary32 fields and hence
    exact rationals, are modelled over `ℚ`; derived geometric quantities that
    involve `sqrt`/`cos`/`sin` (lengths, unit normals, angles) are modelled
    over `ℝ`.  Decimal floating literals such as `1e-9` are modelled at their
    decimal value.
  * `std::numeric_limits<double>::max()` is the exact rational
    `(2^53 - 1) * 2^971`; `lowest()` is its negation.
  * Byte buffers are `List ℕ` of byte values; multi-byte reads are
    little-endian, as in the source.
  * The vertex-deduplication `std::map<Vec3, int>` is keyed by the strict
    lexicographic `Vec3::operator<`, whose induced equivalence is exact
    componentwise equality; the map lookup is therefore modelled as a
    first-index search of the vertex list for an exactly equal vertex
    (first-occurrence-wins, identical observable behaviour).
  * Member functions that mutate `this` are modelled as functions returning
    the new state.
-/

/-- 3-component vector (`Vector3` in Vector3.hpp), generic over the scalar
field standing in for `double`. -/
structure Vec3 (α : Type) where
  x : α
  y : α
  z : α
deriving DecidableEq, Repr

/-- `Vec3::operator+`. -/
def Vec3.add {α : Type} [LinearOrderedField α] (a b : Vec3 α) : Vec3 α :=
  ⟨a.x + b.x, a.y + b.y, a.z + b.z⟩

/-- `Vec3::operator-`. -/
def Vec3.sub {α : Type} [LinearOrderedField α] (a b : Vec3 α) : Vec3 α :=
  ⟨a.x - b.x, a.y - b.y, a.z - b.z⟩

/-- `Vec3::operator*(double)` (scalar multiplication). -/
def Vec3.smul {α : Type} [LinearOrderedField α] (a : Vec3 α) (s : α) : Vec3 α :=
  ⟨a.x * s, a.y * s, a.z * s⟩

/-- `Vec3::operator*(const Vec3&)` (dot product). -/
def Vec3.dot {α : Type} [LinearOrderedField α] (a b : Vec3 α) : α :=
  a.x * b.x + a.y * b.y + a.z * b.z

/-- `Vec3::operator%` (cross product). -/
def Vec3.cross {α : Type} [LinearOrderedField α] (a b : Vec3 α) : Vec3 α :=
  ⟨a.y * b.z - a.z * b.y, a.z * b.x - a.x * b.z, a.x * b.y - a.y * b.x⟩

/-- `Vec3::operator==`: componentwise equality within epsilon 1e-9. -/
def Vec3.epsEq {α : Type} [LinearOrderedField α] (a b : Vec3 α) : Prop :=
  |a.x - b.x| < 1 / 10 ^ 9 ∧ |a.y - b.y| < 1 / 10 ^ 9 ∧ |a.z - b.z| < 1 / 10 ^ 9

instance {α : Type} [LinearOrderedField α] (a b : Vec3 α) : Decidable (a.epsEq b) := by
  unfold Vec3.epsEq; infer_instance

/-- `std::numeric_limits<double>::max()` as an exact scalar. -/
def dblMax (α : Type) [LinearOrderedField α] : α := (2 ^ 53 - 1) * 2 ^ 971

/-- Triangle face of 3 vertex indices (`Triangle` in Mesh.hpp). -/
structure Triangle where
  v0 : ℕ
  v1 : ℕ
  v2 : ℕ
deriving DecidableEq, Repr

/-- Indexed triangle mesh (`Mesh` in Mesh.hpp): vertex array plus face array. -/
structure Mesh (α : Type) where
  vertices : List (Vec3 α)
  faces : List Triangle
deriving DecidableEq, Repr

/-- `Mesh::clear()` result: the empty mesh. -/
def Mesh.empty (α : Type) : Mesh α := ⟨[], []⟩

/-! ### Binary STL decoding (`Mesh::loadFromSTLBuffer`, Mesh.cpp lines 37-115) -/

/-- Read one byte of a buffer (out-of-range reads never occur on the paths
the loader takes; they default to 0). -/
def byteAt (buf : List ℕ) (i : ℕ) : ℕ := buf.getD i 0

/-- Little-endian `uint32` read (`std::memcpy(&triangleCount, buffer + offset, 4)`). -/
def readU32 (buf : List ℕ) (off : ℕ) : ℕ :=
  byteAt buf off + 256 * byteAt buf (off + 1) + 65536 * byteAt buf (off + 2) +
    16777216 * byteAt buf (off + 3)

/-- Exact value of an IEEE-754 binary32 number from its little-endian bytes
(the `float` fields of an STL record, converted to `double`, i.e. exactly).
Encodings with exponent field 255 (infinities/NaNs) are modelled by letting
the normal-number formula continue; no claim depends on them. -/
def decodeF32 (buf : List ℕ) (off : ℕ) : ℚ :=
  let w : ℕ := readU32 buf off
  let s : ℕ := w / 2 ^ 31
  let e : ℕ := (w / 2 ^ 23) % 256
  let m : ℕ := w % 2 ^ 23
  let mag : ℚ :=
    if e = 0 then mkRat m (2 ^ 149)
    else mkRat ((2 ^ 23 + m) * 2 ^ e) (2 ^ 150)
  if s % 2 = 1 then -mag else mag

/-- Read the 3 `float` coordinates of one STL vertex record. -/
def readVec (buf : List ℕ) (off : ℕ) : Vec3 ℚ :=
  ⟨decodeF32 buf off, decodeF32 buf (off + 4), decodeF32 buf (off + 8)⟩

/-- One dedup-map lookup/insert (Mesh.cpp lines 90-101): reuse the index of an
exactly equal existing vertex, else append.  Returns the new mesh state and
the index used. -/
def Mesh.addVertex (m : Mesh ℚ) (v : Vec3 ℚ) : Mesh ℚ × ℕ :=
  match m.vertices.findIdx? (fun w => w = v) with
  | some i => (m, i)
  | none => ({ m with vertices := m.vertices ++ [v] }, m.vertices.length)

/-- The per-triangle loop of `Mesh::loadFromSTLBuffer` (lines 71-109):
`k` triangles remain, the next record starts at `off`.  Returns the success
flag and the mesh state at exit (the C++ returns `false` mid-loop leaving
`this` holding the partially decoded mesh). -/
def loadLoop (buf : List ℕ) : ℕ → ℕ → Mesh ℚ → Bool × Mesh ℚ
  | 0, _, m => (true, m)
  | k + 1, off, m =>
    if off + 50 > buf.length then (false, m)
    else
      let r0 := m.addVertex (readVec buf (off + 12))
      let r1 := r0.1.addVertex (readVec buf (off + 24))
      let r2 := r1.1.addVertex (readVec buf (off + 36))
      loadLoop buf k (off + 50)
        { r2.1 with faces := r2.1.faces ++ [⟨r0.2, r1.2, r2.2⟩] }

/-- `Mesh::loadFromSTLBuffer` (Mesh.cpp lines 37-115).  `clear()` runs first,
so decoding always starts from the empty mesh and the prior state `_self` is
discarded.  `expectedSize` is computed in C++ `unsigned int` arithmetic
(`84 + triangleCount * 50` wraps modulo `2^32`). -/
def Mesh.loadFromSTLBuffer (_self : Mesh ℚ) (buf : List ℕ) : Bool × Mesh ℚ :=
  if buf.length < 84 then (false, Mesh.empty ℚ)
  else
    let triangleCount := readU32 buf 80
    let expectedSize := (84 + triangleCount * 50) % 2 ^ 32
    if buf.length < expectedSize then (false, Mesh.empty ℚ)
    else loadLoop buf triangleCount 84 (Mesh.empty ℚ)

/-! ### Mesh queries (Mesh.cpp lines 117-208) -/

/-- `Mesh::getVolume` (lines 117-143): `|Σ p1 · (p2 × p3)| / 6`. -/
def Mesh.getVolume {α : Type} [LinearOrderedField α] (m : Mesh α) : α :=
  if m.faces = [] then 0
  else
    |m.faces.foldl
        (fun acc f =>
          acc + (m.vertices.getD f.v0 ⟨0, 0, 0⟩).dot
            ((m.vertices.getD f.v1 ⟨0, 0, 0⟩).cross (m.vertices.getD f.v2 ⟨0, 0, 0⟩)))
        0 / 6|

/-- The three undirected edges of a face, smaller index first
(Mesh.cpp lines 155-171). -/
def edgesOfFace (f : Triangle) : List (ℕ × ℕ) :=
  [if f.v0 < f.v1 then (f.v0, f.v1) else (f.v1, f.v0),
   if f.v1 < f.v2 then (f.v1, f.v2) else (f.v2, f.v1),
   if f.v2 < f.v0 then (f.v2, f.v0) else (f.v0, f.v2)]

/-- `Mesh::isWatertight` (lines 145-184): every undirected edge occurs exactly
twice in the multiset of face edges (the `std::map` of edge counts is modelled
by counting directly in the concatenated edge list). -/
def Mesh.isWatertight {α : Type} (m : Mesh α) : Bool :=
  if m.faces = [] then false
  else
    let edges := m.faces.flatMap edgesOfFace
    edges.all (fun e => edges.count e = 2)

/-- `Mesh::getBoundingBox` (lines 186-208): extent `max - min` per component,
zero vector for an empty mesh. -/
def Mesh.getBoundingBox {α : Type} [LinearOrderedField α] (m : Mesh α) : Vec3 α :=
  if m.vertices = [] then ⟨0, 0, 0⟩
  else
    let lo := m.vertices.foldl
      (fun (acc : Vec3 α) v => ⟨min acc.x v.x, min acc.y v.y, min acc.z v.z⟩)
      ⟨dblMax α, dblMax α, dblMax α⟩
    let hi := m.vertices.foldl
      (fun (acc : Vec3 α) v => ⟨max acc.x v.x, max acc.y v.y, max acc.z v.z⟩)
      ⟨-dblMax α, -dblMax α, -dblMax α⟩
    ⟨hi.x - lo.x, hi.y - lo.y, hi.z - lo.z⟩

/-! ### Concrete STL buffers used by counterexamples and witnesses -/

/-- A valid 134-byte binary STL buffer: 80-byte header, `N = 1`, one triangle
with vertices `(0,0,0)`, `(2^-149, 0, 0)` (float bytes `01 00 00 00`, the
smallest subnormal) and `(0,1,0)` (float bytes `00 00 80 3F` for `1.0f`). -/
def stlBufTiny : List ℕ :=
  List.replicate 80 0 ++ [1, 0, 0, 0] ++
    (List.replicate 12 0 ++
     List.replicate 12 0 ++
     ([1, 0, 0, 0] ++ List.replicate 8 0) ++
     ([0, 0, 0, 0] ++ [0, 0, 128, 63] ++ [0, 0, 0, 0]) ++
     [0, 0])

/-- A 90-byte buffer declaring `N = 1` triangle but missing its record. -/
def stlBufShort : List ℕ :=
  List.replicate 80 0 ++ [1, 0, 0, 0] ++ List.replicate 6 0

set_option maxRecDepth 4000

/-- Full evaluation of the loader on `stlBufTiny` (used by several concrete
counterexamples and witnesses below, so that the kernel evaluates the load
only once). -/
theorem stlBufTiny_load_eval :
    (Mesh.empty ℚ).loadFromSTLBuffer stlBufTiny =
      (true, ⟨[⟨0, 0, 0⟩, ⟨mkRat 1 (2 ^ 149), 0, 0⟩, ⟨0, 1, 0⟩], [⟨0, 1, 2⟩]⟩) := by
  decide

/-! ### Loader lemmas -/

theorem Mesh.addVertex_faces (m : Mesh ℚ) (v : Vec3 ℚ) :
    (m.addVertex v).1.faces = m.faces := by
  unfold Mesh.addVertex
  cases m.vertices.findIdx? (fun w => w = v) <;> rfl

theorem Mesh.addVertex_nodup (m : Mesh ℚ) (v : Vec3 ℚ) (h : m.vertices.Nodup) :
    (m.addVertex v).1.vertices.Nodup := by
  unfold Mesh.addVertex
  cases hf : m.vertices.findIdx? (fun w => w = v) with
  | some i => exact h
  | none =>
    simp only
    rw [List.nodup_append]
    refine ⟨h, List.nodup_singleton v, ?_⟩
    intro a ha hm
    rw [List.findIdx?_eq_none_iff] at hf
    have := hf a ha
    simp only [List.mem_singleton] at hm
    subst hm
    simp at this

theorem loadLoop_nodup (buf : List ℕ) (k off : ℕ) (m : Mesh ℚ)
    (h : m.vertices.Nodup) : ((loadLoop buf k off m).2).vertices.Nodup := by
  induction k generalizing off m with
  | zero => exact h
  | succ k ih =>
    unfold loadLoop
    by_cases hg : off + 50 > buf.length
    · simp only [if_pos hg]; exact h
    · simp only [if_neg hg]
      exact ih _ _ (Mesh.addVertex_nodup _ _ (Mesh.addVertex_nodup _ _
        (Mesh.addVertex_nodup _ _ h)))

theorem loadLoop_ok (buf : List ℕ) (k : ℕ) : ∀ (off : ℕ) (m : Mesh ℚ),
    off + 50 * k ≤ buf.length →
    (loadLoop buf k off m).1 = true ∧
      (loadLoop buf k off m).2.faces.length = m.faces.length + k := by
  induction k with
  | zero => intro off m _; exact ⟨rfl, rfl⟩
  | succ k ih =>
    intro off m hle
    have h50 : ¬(off + 50 > buf.length) := by omega
    unfold loadLoop
    simp only [if_neg h50]
    have := ih (off + 50) ({ ((m.addVertex (readVec buf (off + 12))).1.addVertex
        (readVec buf (off + 24))).1.addVertex (readVec buf (off + 36)) |>.1 with
      faces := (((m.addVertex (readVec buf (off + 12))).1.addVertex
        (readVec buf (off + 24))).1.addVertex (readVec buf (off + 36))).1.faces ++
        [⟨(m.addVertex (readVec buf (off + 12))).2,
          ((m.addVertex (readVec buf (off + 12))).1.addVertex (readVec buf (off + 24))).2,
          (((m.addVertex (readVec buf (off + 12))).1.addVertex
            (readVec buf (off + 24))).1.addVertex (readVec buf (off + 36))).2⟩] })
      (by omega)
    refine ⟨this.1, ?_⟩
    rw [this.2]
    simp only [List.length_append, List.length_singleton,
      Mesh.addVertex_faces]
    omega

theorem loadLoop_overrun (buf : List ℕ) (k : ℕ) : ∀ (off : ℕ) (m : Mesh ℚ),
    1 ≤ k → buf.length < off + 50 * k → (loadLoop buf k off m).1 = false := by
  induction k with
  | zero => omega
  | succ k ih =>
    intro off m _ hlt
    unfold loadLoop
    by_cases hg : off + 50 > buf.length
    · simp only [if_pos hg]
    · simp only [if_neg hg]
      have hk : 1 ≤ k := by omega
      exact ih (off + 50) _ hk (by omega)

/-! ### Claims C1, C2, C4 -/

/-- Claim C1 as stated is false: a failed buffer load does not leave the prior
mesh intact.  Concretely, a mesh loaded from a valid buffer and then given an
empty buffer fails the load and afterwards holds the empty mesh, not the mesh
it held before the call. -/
theorem c1_load_failure_counterexample :
    ((Mesh.empty ℚ).loadFromSTLBuffer stlBufTiny).1 = true ∧
    ((((Mesh.empty ℚ).loadFromSTLBuffer stlBufTiny).2).loadFromSTLBuffer []).1 = false ∧
    ((((Mesh.empty ℚ).loadFromSTLBuffer stlBufTiny).2).loadFromSTLBuffer []).2 ≠
      ((Mesh.empty ℚ).loadFromSTLBuffer stlBufTiny).2 := by
  rw [stlBufTiny_load_eval]
  refine ⟨rfl, by decide, by decide⟩

/-- Claim C1, amended: `loadFromSTLBuffer` clears the mesh before validating,
so the result never depends on the prior state; when either size validation
fails, the mesh afterwards is the empty mesh (on a mid-decode truncation
failure it holds the partially decoded prefix instead). -/
theorem c1_load_failure_clears (prior : Mesh ℚ) (buf : List ℕ) :
    prior.loadFromSTLBuffer buf = (Mesh.empty ℚ).loadFromSTLBuffer buf ∧
    (buf.length < 84 → prior.loadFromSTLBuffer buf = (false, Mesh.empty ℚ)) ∧
    (84 ≤ buf.length → buf.length < (84 + readU32 buf 80 * 50) % 2 ^ 32 →
      prior.loadFromSTLBuffer buf = (false, Mesh.empty ℚ)) := by
  refine ⟨rfl, ?_, ?_⟩
  · intro h
    unfold Mesh.loadFromSTLBuffer
    rw [if_pos h]
  · intro h84 hexp
    unfold Mesh.loadFromSTLBuffer
    rw [if_neg (by omega)]
    simp only
    rw [if_pos (show buf.length < (84 + readU32 buf 80 * 50) % 2 ^ 32 by omega)]

/-- Witness for `c1_load_failure_clears` at a concrete non-empty prior mesh
and a concrete too-short buffer. -/
theorem c1_load_failure_clears_witness :
    ((List.replicate 10 0 : List ℕ).length < 84) ∧
    (((Mesh.empty ℚ).loadFromSTLBuffer stlBufTiny).2).loadFromSTLBuffer
      (List.replicate 10 0) = (false, Mesh.empty ℚ) :=
  ⟨by decide,
    (c1_load_failure_clears ((Mesh.empty ℚ).loadFromSTLBuffer stlBufTiny).2
      (List.replicate 10 0)).2.1 (by decide)⟩

/-- Claim C2 as stated is false: the deduplication key is exact (raw double)
equality, not ε-equality.  A valid STL whose records contain the coordinates
`0` and `2^-149` (distinct float values within 1e-9 of each other) loads
into a mesh holding two distinct vertices that are equal under the ε-equality
`Vec3::operator==`. -/
theorem c2_dedup_eps_counterexample :
    ((Mesh.empty ℚ).loadFromSTLBuffer stlBufTiny).1 = true ∧
    (((Mesh.empty ℚ).loadFromSTLBuffer stlBufTiny).2.vertices.getD 0 ⟨0, 0, 0⟩ ≠
      ((Mesh.empty ℚ).loadFromSTLBuffer stlBufTiny).2.vertices.getD 1 ⟨0, 0, 0⟩) ∧
    (((Mesh.empty ℚ).loadFromSTLBuffer stlBufTiny).2.vertices.getD 0 ⟨0, 0, 0⟩).epsEq
      (((Mesh.empty ℚ).loadFromSTLBuffer stlBufTiny).2.vertices.getD 1 ⟨0, 0, 0⟩) := by
  have hv : ((Mesh.empty ℚ).loadFromSTLBuffer stlBufTiny).2.vertices =
      [⟨0, 0, 0⟩, ⟨mkRat 1 (2 ^ 149), 0, 0⟩, ⟨0, 1, 0⟩] := by
    rw [stlBufTiny_load_eval]
  refine ⟨by rw [stlBufTiny_load_eval], by rw [hv]; decide, ?_⟩
  rw [hv]
  show Vec3.epsEq ⟨0, 0, 0⟩ ⟨mkRat 1 (2 ^ 149), 0, 0⟩
  have hq : mkRat 1 (2 ^ 149) = ((1 : ℚ) / 2 ^ 149) := by
    rw [Rat.mkRat_eq_div]; norm_num
  unfold Vec3.epsEq
  rw [hq]
  refine ⟨?_, by norm_num, by norm_num⟩
  rw [show ((0 : ℚ) - 1 / 2 ^ 149) = -(1 / 2 ^ 149) by ring, abs_neg,
    abs_of_pos (by positivity)]
  norm_num

/-- Claim C2, amended: the deduplication invariant established at load is
exact-equality distinctness: no two entries of the vertex array of a
successfully loaded mesh are equal as coordinate triples (vertices closer
than ε may coexist). -/
theorem c2_dedup_exact (prior : Mesh ℚ) (buf : List ℕ)
    (_hok : (prior.loadFromSTLBuffer buf).1 = true) :
    (prior.loadFromSTLBuffer buf).2.vertices.Nodup := by
  unfold Mesh.loadFromSTLBuffer
  by_cases h84 : buf.length < 84
  · rw [if_pos h84]; exact List.nodup_nil
  · rw [if_neg h84]
    simp only
    by_cases hexp : buf.length < (84 + readU32 buf 80 * 50) % 2 ^ 32
    · rw [if_pos hexp]; exact List.nodup_nil
    · rw [if_neg hexp]
      exact loadLoop_nodup buf _ 84 _ List.nodup_nil

/-- Witness for `c2_dedup_exact` at a concrete valid buffer. -/
theorem c2_dedup_exact_witness :
    ((Mesh.empty ℚ).loadFromSTLBuffer stlBufTiny).1 = true ∧
    ((Mesh.empty ℚ).loadFromSTLBuffer stlBufTiny).2.vertices.Nodup :=
  ⟨by rw [stlBufTiny_load_eval],
    c2_dedup_exact (Mesh.empty ℚ) stlBufTiny (by rw [stlBufTiny_load_eval])⟩

/-- Claim C4: the buffer-based STL load fails exactly when the buffer is
shorter than `84 + 50·N` bytes, where `N` is the little-endian `uint32` at
offset 80 (in particular whenever it is shorter than 84 bytes, since the
count cannot then be read); a buffer of at least that size loads successfully
with exactly `N` faces.  The `84 + N·50` size check in the source wraps in
32-bit arithmetic for huge `N`, but the in-loop truncation check still
rejects every short buffer. -/
theorem c4_size_validation (prior : Mesh ℚ) (buf : List ℕ) :
    (buf.length < 84 + 50 * readU32 buf 80 →
      (prior.loadFromSTLBuffer buf).1 = false) ∧
    (84 + 50 * readU32 buf 80 ≤ buf.length →
      (prior.loadFromSTLBuffer buf).1 = true ∧
      (prior.loadFromSTLBuffer buf).2.faces.length = readU32 buf 80) := by
  constructor
  · intro hshort
    unfold Mesh.loadFromSTLBuffer
    by_cases h84 : buf.length < 84
    · rw [if_pos h84]
    · rw [if_neg h84]
      simp only
      by_cases hexp : buf.length < (84 + readU32 buf 80 * 50) % 2 ^ 32
      · rw [if_pos hexp]
      · rw [if_neg hexp]
        have hk : 1 ≤ readU32 buf 80 := by omega
        exact loadLoop_overrun buf _ 84 _ hk (by omega)
  · intro hlong
    unfold Mesh.loadFromSTLBuffer
    rw [if_neg (by omega)]
    simp only
    have hmod : (84 + readU32 buf 80 * 50) % 2 ^ 32 ≤ 84 + readU32 buf 80 * 50 :=
      Nat.mod_le _ _
    rw [if_neg (by omega)]
    have := loadLoop_ok buf (readU32 buf 80) 84 (Mesh.empty ℚ) (by omega)
    exact ⟨this.1, by rw [this.2]; simp [Mesh.empty]⟩

/-- Witness for `c4_size_validation`: the concrete 90-byte truncated buffer is
rejected and the concrete 134-byte valid buffer loads with exactly 1 face. -/
theorem c4_size_validation_witness :
    ((Mesh.empty ℚ).loadFromSTLBuffer stlBufShort).1 = false ∧
    ((Mesh.empty ℚ).loadFromSTLBuffer stlBufTiny).1 = true ∧
    ((Mesh.empty ℚ).loadFromSTLBuffer stlBufTiny).2.faces.length = readU32 stlBufTiny 80 :=
  ⟨(c4_size_validation (Mesh.empty ℚ) stlBufShort).1 (by decide),
   (c4_size_validation (Mesh.empty ℚ) stlBufTiny).2 (by decide)⟩

/-! ### Claim C8: queries on the empty mesh -/

/-- Claim C8: on the empty mesh every query returns its identity value:
`getVolume` is 0, `isWatertight` is false, `getBoundingBox` is the zero
vector (and none of them can fail). -/
theorem c8_empty_mesh_queries {α : Type} [LinearOrderedField α] :
    (Mesh.empty α).getVolume = 0 ∧
    (Mesh.empty α).isWatertight = false ∧
    (Mesh.empty α).getBoundingBox = ⟨0, 0, 0⟩ :=
  ⟨rfl, rfl, rfl⟩

/-! ### Real-valued geometry (Vector3.hpp lines 49-64, Spatial.cpp lines 102-112)

Quantities that involve `std::sqrt`, `std::cos`, `std::sin` are modelled
over `ℝ`. -/

/-- `Vector3::length()`. -/
noncomputable def Vec3.length (v : Vec3 ℝ) : ℝ :=
  Real.sqrt (v.x * v.x + v.y * v.y + v.z * v.z)

/-- `Vector3::normalized()`: the zero vector when `length < 1e-10`. -/
noncomputable def Vec3.normalized (v : Vec3 ℝ) : Vec3 ℝ :=
  if v.length < 1 / 10 ^ 10 then ⟨0, 0, 0⟩
  else ⟨v.x / v.length, v.y / v.length, v.z / v.length⟩

/-- `calculateTriangleNormal` (Spatial.cpp lines 102-106). -/
noncomputable def calculateTriangleNormal (v0 v1 v2 : Vec3 ℝ) : Vec3 ℝ :=
  ((v1.sub v0).cross (v2.sub v0)).normalized

/-- `calculateTriangleArea` (Spatial.cpp lines 108-112). -/
noncomputable def calculateTriangleArea (v0 v1 v2 : Vec3 ℝ) : ℝ :=
  ((v1.sub v0).cross (v2.sub v0)).length * 0.5

/-- 3×3 matrix (`Matrix3` in Vector3.hpp), row-major entries. -/
structure Matrix3 where
  m00 : ℝ
  m01 : ℝ
  m02 : ℝ
  m10 : ℝ
  m11 : ℝ
  m12 : ℝ
  m20 : ℝ
  m21 : ℝ
  m22 : ℝ

/-- The `Matrix3()` default constructor (identity). -/
def Matrix3.identity : Matrix3 := ⟨1, 0, 0, 0, 1, 0, 0, 0, 1⟩

/-- `Matrix3::rotation(axis, angle)` (Vector3.hpp lines 134-146), Rodrigues'
formula built from the normalized axis.  Note the source never fails: a
degenerate axis silently normalizes to the zero vector. -/
noncomputable def Matrix3.rotation (axis : Vec3 ℝ) (angleRadians : ℝ) : Matrix3 :=
  let k := axis.normalized
  let c := Real.cos angleRadians
  let s := Real.sin angleRadians
  let t := 1 - c
  ⟨t * k.x * k.x + c, t * k.x * k.y - s * k.z, t * k.x * k.z + s * k.y,
   t * k.x * k.y + s * k.z, t * k.y * k.y + c, t * k.y * k.z - s * k.x,
   t * k.x * k.z - s * k.y, t * k.y * k.z + s * k.x, t * k.z * k.z + c⟩

/-! ### Claim C7: rotation about a degenerate axis -/

/-- Claim C7 as stated is false: `Matrix3::rotation` has no failure path and
no `InvalidAxis` error exists anywhere in the source.  On the zero axis
(whose normalization is the zero vector) with angle 0 it returns the
identity matrix instead of failing. -/
theorem c7_rotation_counterexample :
    Vec3.length ⟨0, 0, 0⟩ < 1 / 10 ^ 10 ∧
    Matrix3.rotation ⟨0, 0, 0⟩ 0 = Matrix3.identity := by
  have hlen : Vec3.length ⟨0, 0, 0⟩ = 0 := by
    simp [Vec3.length]
  constructor
  · rw [hlen]; norm_num
  · have hk : Vec3.normalized ⟨0, 0, 0⟩ = ⟨0, 0, 0⟩ := by
      unfold Vec3.normalized
      rw [if_pos (by rw [hlen]; norm_num)]
    unfold Matrix3.rotation
    rw [hk]
    simp [Matrix3.identity]

/-- Claim C7, amended: for every axis whose normalization is the zero vector
(length < 1e-10), `Matrix3::rotation(axis, angle)` does not fail; it returns
the matrix `cos(angle) · I` (Rodrigues' formula evaluated at `k = 0`). -/
theorem c7_rotation_zero_axis (axis : Vec3 ℝ) (angleRadians : ℝ)
    (h : axis.length < 1 / 10 ^ 10) :
    Matrix3.rotation axis angleRadians =
      ⟨Real.cos angleRadians, 0, 0,
       0, Real.cos angleRadians, 0,
       0, 0, Real.cos angleRadians⟩ := by
  have hk : axis.normalized = ⟨0, 0, 0⟩ := by
    unfold Vec3.normalized
    rw [if_pos h]
  unfold Matrix3.rotation
  rw [hk]
  simp

/-- Witness for `c7_rotation_zero_axis` at the zero axis and angle 0. -/
theorem c7_rotation_zero_axis_witness :
    Vec3.length ⟨0, 0, 0⟩ < 1 / 10 ^ 10 ∧
    Matrix3.rotation ⟨0, 0, 0⟩ 0 =
      ⟨Real.cos 0, 0, 0, 0, Real.cos 0, 0, 0, 0, Real.cos 0⟩ := by
  have h : Vec3.length ⟨0, 0, 0⟩ < 1 / 10 ^ 10 := by
    have : Vec3.length ⟨0, 0, 0⟩ = 0 := by simp [Vec3.length]
    rw [this]; norm_num
  exact ⟨h, c7_rotation_zero_axis ⟨0, 0, 0⟩ 0 h⟩

/-! ### Spatial primitives (Spatial.hpp, Spatial.cpp) -/

/-- Ray (Spatial.hpp lines 13-23). -/
structure Ray where
  origin : Vec3 ℝ
  direction : Vec3 ℝ

/-- `Ray::at(t) = origin + direction * t`. -/
noncomputable def Ray.at (r : Ray) (t : ℝ) : Vec3 ℝ := r.origin.add (r.direction.smul t)

/-- Axis-aligned bounding box (Spatial.hpp lines 28-84). -/
structure AABB where
  min : Vec3 ℝ
  max : Vec3 ℝ

/-- The `AABB()` default constructor: inverted box at `(+max, -max)` doubles. -/
noncomputable def AABB.initial : AABB :=
  ⟨⟨dblMax ℝ, dblMax ℝ, dblMax ℝ⟩, ⟨-dblMax ℝ, -dblMax ℝ, -dblMax ℝ⟩⟩

/-- `AABB::expand(point)` (Spatial.hpp lines 44-51). -/
noncomputable def AABB.expand (b : AABB) (p : Vec3 ℝ) : AABB :=
  ⟨⟨Min.min b.min.x p.x, Min.min b.min.y p.y, Min.min b.min.z p.z⟩,
   ⟨Max.max b.max.x p.x, Max.max b.max.y p.y, Max.max b.max.z p.z⟩⟩

/-- One axis of the slab test in `AABB::intersect` (Spatial.cpp lines 17-42):
`none` models the early `return false`, `some` carries the clipped
`(tMin, tMax)` interval. -/
noncomputable def slabAxis (origin_i dir_i min_i max_i : ℝ) (acc : ℝ × ℝ) :
    Option (ℝ × ℝ) :=
  if |dir_i| < 1 / 10 ^ 8 then
    if origin_i < min_i ∨ origin_i > max_i then none else some acc
  else
    let invD := 1 / dir_i
    let t1 := (min_i - origin_i) * invD
    let t2 := (max_i - origin_i) * invD
    let tl := if t1 > t2 then t2 else t1
    let th := if t1 > t2 then t1 else t2
    let tMin := max acc.1 tl
    let tMax := min acc.2 th
    if tMin > tMax then none else some (tMin, tMax)

/-- `AABB::intersect(ray, tMin, tMax)` (Spatial.cpp lines 12-45): slab test
over the three axes starting from `(0, max double)`. -/
noncomputable def AABB.intersect (b : AABB) (ray : Ray) : Option (ℝ × ℝ) :=
  (slabAxis ray.origin.x ray.direction.x b.min.x b.max.x (0, dblMax ℝ)).bind
    fun a1 => (slabAxis ray.origin.y ray.direction.y b.min.y b.max.y a1).bind
      fun a2 => slabAxis ray.origin.z ray.direction.z b.min.z b.max.z a2

/-- `intersectRayTriangle` (Möller-Trumbore, Spatial.cpp lines 51-96):
`some t` iff the source returns `true` with ray parameter `t`. -/
noncomputable def intersectRayTriangle (ray : Ray) (v0 v1 v2 : Vec3 ℝ) :
    Option ℝ :=
  let edge1 := v1.sub v0
  let edge2 := v2.sub v0
  let h := ray.direction.cross edge2
  let a := edge1.dot h
  if |a| < 1 / 10 ^ 8 then none
  else
    let f := 1 / a
    let s := ray.origin.sub v0
    let u := f * (s.dot h)
    if u < 0 ∨ u > 1 then none
    else
      let q := s.cross edge1
      let v := f * (ray.direction.dot q)
      if v < 0 ∨ u + v > 1 then none
      else
        let t := f * (edge2.dot q)
        if t > 1 / 10 ^ 8 then some t else none

/-! ### AABBTree (Spatial.hpp lines 105-160, Spatial.cpp lines 118-246) -/

/-- A `AABBTree::Node`: leaf nodes own triangle indices, inner nodes own two
children; both carry bounds. -/
inductive BVHNode where
  | leaf : AABB → List ℕ → BVHNode
  | inner : AABB → BVHNode → BVHNode → BVHNode

/-- Node bounds accessor. -/
def BVHNode.bounds : BVHNode → AABB
  | .leaf b _ => b
  | .inner b _ _ => b

/-- `AABBTree::computeBounds` (Spatial.cpp lines 133-144). -/
noncomputable def computeBounds (verts : List (Vec3 ℝ)) (faces : List Triangle)
    (idxs : List ℕ) : AABB :=
  idxs.foldl
    (fun b i =>
      let tri := faces.getD i ⟨0, 0, 0⟩
      ((b.expand (verts.getD tri.v0 ⟨0, 0, 0⟩)).expand
        (verts.getD tri.v1 ⟨0, 0, 0⟩)).expand (verts.getD tri.v2 ⟨0, 0, 0⟩))
    AABB.initial

/-- Component select used by the build (`(axis == 0) ? x : (axis == 1) ? y : z`). -/
def Vec3.comp (v : Vec3 ℝ) (axis : ℕ) : ℝ :=
  if axis = 0 then v.x else if axis = 1 then v.y else v.z

/-- Triangle centroid coordinate along `axis`
(Spatial.cpp lines 174-178: `(v0 + v1 + v2) * (1/3)`). -/
noncomputable def centroidAxis (verts : List (Vec3 ℝ)) (faces : List Triangle)
    (axis : ℕ) (i : ℕ) : ℝ :=
  let tri := faces.getD i ⟨0, 0, 0⟩
  ((((verts.getD tri.v0 ⟨0, 0, 0⟩).add (verts.getD tri.v1 ⟨0, 0, 0⟩)).add
      (verts.getD tri.v2 ⟨0, 0, 0⟩)).smul (1 / 3)).comp axis

/-- `AABBTree::buildNode` (Spatial.cpp lines 146-193).  `std::sort` by
centroid along the longest axis is modelled by a stable merge sort on the
same key (`std::sort` leaves the order of tied keys unspecified).  The split
axis computation mirrors the two sequential `if` statements of the source. -/
noncomputable def buildNode (verts : List (Vec3 ℝ)) (faces : List Triangle)
    (idxs : List ℕ) (depth : ℕ) : BVHNode :=
  let bounds := computeBounds verts faces idxs
  if idxs.length ≤ 10 ∨ 32 ≤ depth then .leaf bounds idxs
  else
    let ext := bounds.max.sub bounds.min
    let axis : ℕ :=
      if ext.z > ext.x ∧ ext.z > ext.y then 2 else if ext.y > ext.x then 1 else 0
    let sorted := idxs.mergeSort
      (fun a b => decide (centroidAxis verts faces axis a ≤ centroidAxis verts faces axis b))
    let mid := sorted.length / 2
    .inner bounds (buildNode verts faces (sorted.take mid) (depth + 1))
      (buildNode verts faces (sorted.drop mid) (depth + 1))
termination_by idxs.length
decreasing_by
  · simp only [List.length_take, List.length_mergeSort]
    omega
  · simp only [List.length_drop, List.length_mergeSort]
    omega

/-- `AABBTree` (root only; the borrowed vertex/face arrays are passed to the
queries explicitly). -/
structure AABBTree where
  root : Option BVHNode

/-- `AABBTree::build` (Spatial.cpp lines 118-131): index list `[0..N)`. -/
noncomputable def AABBTree.build (verts : List (Vec3 ℝ)) (faces : List Triangle) :
    AABBTree :=
  ⟨some (buildNode verts faces (List.range faces.length) 0)⟩

/-- All triangle indices stored in the leaves of a subtree. -/
def BVHNode.leafIndices : BVHNode → List ℕ
  | .leaf _ idxs => idxs
  | .inner _ l r => l.leafIndices ++ r.leafIndices

/-- All triangle indices stored in the leaves of a tree. -/
def AABBTree.leafIndices (t : AABBTree) : List ℕ :=
  match t.root with
  | none => []
  | some n => n.leafIndices

/-- `RayHit` (Spatial.hpp lines 89-97). -/
structure RayHit where
  hit : Bool
  distance : ℝ
  triangleIndex : ℤ
  point : Vec3 ℝ
  normal : Vec3 ℝ

/-- The `RayHit()` default constructor: a miss at distance `+max double`. -/
noncomputable def RayHit.miss : RayHit := ⟨false, dblMax ℝ, -1, ⟨0, 0, 0⟩, ⟨0, 0, 0⟩⟩

/-- One iteration of the leaf loop of `rayCastRecursive`
(Spatial.cpp lines 224-239): update the best hit when the triangle
intersection strictly improves it. -/
noncomputable def mtUpdate (verts : List (Vec3 ℝ)) (faces : List Triangle)
    (ray : Ray) (maxDistance : ℝ) (best : RayHit) (triIdx : ℕ) : RayHit :=
  let tri := faces.getD triIdx ⟨0, 0, 0⟩
  let v0 := verts.getD tri.v0 ⟨0, 0, 0⟩
  let v1 := verts.getD tri.v1 ⟨0, 0, 0⟩
  let v2 := verts.getD tri.v2 ⟨0, 0, 0⟩
  match intersectRayTriangle ray v0 v1 v2 with
  | none => best
  | some t =>
    if t < best.distance ∧ t < maxDistance ∧ t > 1 / 10 ^ 6 then
      ⟨true, t, (triIdx : ℤ), ray.at t, calculateTriangleNormal v0 v1 v2⟩
    else best

/-- `AABBTree::rayCastRecursive` (Spatial.cpp lines 206-246).  The
by-reference `bestHit` accumulator is threaded explicitly; children of an
inner node are visited left then right, as in the source. -/
noncomputable def rayCastNode (verts : List (Vec3 ℝ)) (faces : List Triangle)
    (ray : Ray) (maxDistance : ℝ) : BVHNode → RayHit → RayHit
  | .leaf bounds idxs, best =>
    match bounds.intersect ray with
    | none => best
    | some tm =>
      if tm.1 > maxDistance ∨ tm.1 > best.distance then best
      else idxs.foldl (mtUpdate verts faces ray maxDistance) best
  | .inner bounds l r, best =>
    match bounds.intersect ray with
    | none => best
    | some tm =>
      if tm.1 > maxDistance ∨ tm.1 > best.distance then best
      else rayCastNode verts faces ray maxDistance r
        (rayCastNode verts faces ray maxDistance l best)

/-- `AABBTree::rayCast` (Spatial.cpp lines 195-204): default miss if the tree
was never built, else a traversal from the root starting from the default
miss. -/
noncomputable def AABBTree.rayCast (t : AABBTree) (verts : List (Vec3 ℝ))
    (faces : List Triangle) (ray : Ray) (maxDistance : ℝ) : RayHit :=
  match t.root with
  | none => RayHit.miss
  | some n => rayCastNode verts faces ray maxDistance n RayHit.miss

/-! ### BVH coverage (Claim C6) -/

theorem buildNode_leafIndices_perm (verts : List (Vec3 ℝ)) (faces : List Triangle) :
    ∀ (idxs : List ℕ) (depth : ℕ),
      (buildNode verts faces idxs depth).leafIndices.Perm idxs := by
  intro idxs depth
  induction idxs, depth using buildNode.induct verts faces with
  | case1 idxs depth h =>
    rw [buildNode]
    simp only [if_pos h, BVHNode.leafIndices]
    exact List.Perm.refl idxs
  | case2 idxs depth bounds h ext axis sorted mid ihl ihr =>
    rw [buildNode]
    simp only [if_neg h, BVHNode.leafIndices]
    have h1 := List.Perm.append ihl ihr
    rw [List.take_append_drop] at h1
    exact h1.trans (List.mergeSort_perm idxs _)

/-- Claim C6: the BVH produced by `build` over a non-empty mesh covers every
triangle index in `[0, N)` exactly once across its leaves: the concatenation
of all leaf index lists is a permutation of `[0, ..., N-1]`. -/
theorem c6_bvh_coverage (verts : List (Vec3 ℝ)) (faces : List Triangle)
    (_hne : faces ≠ []) :
    (AABBTree.build verts faces).leafIndices.Perm (List.range faces.length) := by
  unfold AABBTree.build AABBTree.leafIndices
  exact buildNode_leafIndices_perm verts faces (List.range faces.length) 0

/-- Witness for `c6_bvh_coverage` on a concrete one-triangle mesh. -/
theorem c6_bvh_coverage_witness :
    ([⟨0, 1, 2⟩] : List Triangle) ≠ [] ∧
    (AABBTree.build [(⟨0, 0, 0⟩ : Vec3 ℝ), ⟨1, 0, 0⟩, ⟨0, 1, 0⟩]
        [⟨0, 1, 2⟩]).leafIndices.Perm
      (List.range ([⟨0, 1, 2⟩] : List Triangle).length) :=
  ⟨by simp, c6_bvh_coverage _ _ (by simp)⟩

/-! ### Ray-cast contract (Claim C10) -/

/-- The properties a recorded hit satisfies: distance strictly between the
1e-6 cutoff and `maxDistance`, a valid triangle index, and the hit point at
`origin + distance * direction`. -/
def goodRayHit (faces : List Triangle) (ray : Ray) (maxDistance : ℝ)
    (h : RayHit) : Prop :=
  1 / 10 ^ 6 < h.distance ∧ h.distance < maxDistance ∧
  (∃ n : ℕ, n < faces.length ∧ h.triangleIndex = (n : ℤ)) ∧
  h.point = ray.origin.add (ray.direction.smul h.distance)

theorem mtUpdate_inv (verts : List (Vec3 ℝ)) (faces : List Triangle)
    (ray : Ray) (maxDistance : ℝ) (b : RayHit) (i : ℕ) (hi : i < faces.length)
    (_hb : b = RayHit.miss ∨ (b.hit = true ∧ goodRayHit faces ray maxDistance b)) :
    mtUpdate verts faces ray maxDistance b i = b ∨
      ((mtUpdate verts faces ray maxDistance b i).hit = true ∧
        goodRayHit faces ray maxDistance (mtUpdate verts faces ray maxDistance b i)) := by
  simp only [mtUpdate]
  cases hmt : intersectRayTriangle ray
      (verts.getD (faces.getD i ⟨0, 0, 0⟩).v0 ⟨0, 0, 0⟩)
      (verts.getD (faces.getD i ⟨0, 0, 0⟩).v1 ⟨0, 0, 0⟩)
      (verts.getD (faces.getD i ⟨0, 0, 0⟩).v2 ⟨0, 0, 0⟩) with
  | none => exact Or.inl rfl
  | some t =>
    simp only []
    by_cases hc : t < b.distance ∧ t < maxDistance ∧ t > 1 / 10 ^ 6
    · right
      rw [if_pos hc]
      exact ⟨rfl, hc.2.2, hc.2.1, ⟨i, hi, rfl⟩, rfl⟩
    · left
      rw [if_neg hc]

theorem foldl_mtUpdate_inv (verts : List (Vec3 ℝ)) (faces : List Triangle)
    (ray : Ray) (maxDistance : ℝ) :
    ∀ (l : List ℕ) (b : RayHit), (∀ i ∈ l, i < faces.length) →
      (b = RayHit.miss ∨ (b.hit = true ∧ goodRayHit faces ray maxDistance b)) →
      (l.foldl (mtUpdate verts faces ray maxDistance) b = RayHit.miss ∨
        ((l.foldl (mtUpdate verts faces ray maxDistance) b).hit = true ∧
          goodRayHit faces ray maxDistance
            (l.foldl (mtUpdate verts faces ray maxDistance) b))) := by
  intro l
  induction l with
  | nil => intro b _ hb; exact hb
  | cons i l ih =>
    intro b hl hb
    rw [List.foldl_cons]
    refine ih _ (fun j hj => hl j (List.mem_cons_of_mem i hj)) ?_
    rcases mtUpdate_inv verts faces ray maxDistance b i
        (hl i (List.mem_cons_self i l)) hb with heq | hgood
    · rw [heq]; exact hb
    · exact Or.inr hgood

theorem rayCastNode_inv (verts : List (Vec3 ℝ)) (faces : List Triangle)
    (ray : Ray) (maxDistance : ℝ) :
    ∀ (node : BVHNode) (b : RayHit),
      (∀ i ∈ node.leafIndices, i < faces.length) →
      (b = RayHit.miss ∨ (b.hit = true ∧ goodRayHit faces ray maxDistance b)) →
      (rayCastNode verts faces ray maxDistance node b = RayHit.miss ∨
        ((rayCastNode verts faces ray maxDistance node b).hit = true ∧
          goodRayHit faces ray maxDistance
            (rayCastNode verts faces ray maxDistance node b))) := by
  intro node
  induction node with
  | leaf bounds idxs =>
    intro b hl hb
    rw [rayCastNode]
    cases bounds.intersect ray with
    | none => exact hb
    | some tm =>
      simp only
      by_cases hgate : tm.1 > maxDistance ∨ tm.1 > b.distance
      · rw [if_pos hgate]; exact hb
      · rw [if_neg hgate]
        exact foldl_mtUpdate_inv verts faces ray maxDistance idxs b hl hb
  | inner bounds l r ihl ihr =>
    intro b hl hb
    rw [rayCastNode]
    cases bounds.intersect ray with
    | none => exact hb
    | some tm =>
      simp only
      by_cases hgate : tm.1 > maxDistance ∨ tm.1 > b.distance
      · rw [if_pos hgate]; exact hb
      · rw [if_neg hgate]
        have hml : ∀ i ∈ l.leafIndices, i < faces.length := fun i hi =>
          hl i (by simp only [BVHNode.leafIndices, List.mem_append]; exact Or.inl hi)
        have hmr : ∀ i ∈ r.leafIndices, i < faces.length := fun i hi =>
          hl i (by simp only [BVHNode.leafIndices, List.mem_append]; exact Or.inr hi)
        exact ihr _ hmr (ihl _ hml hb)

/-- Claim C10: for a BVH built over a mesh, any `rayCast` result with
`hit = true` has `1e-6 < distance < maxDistance`, a triangle index that is a
valid index into the face array, and `point = origin + distance * direction`;
a result with `hit = false` is the unchanged default miss. -/
theorem c10_raycast_contract (verts : List (Vec3 ℝ)) (faces : List Triangle)
    (ray : Ray) (maxDistance : ℝ) :
    (((AABBTree.build verts faces).rayCast verts faces ray maxDistance).hit = true →
      1 / 10 ^ 6 <
        ((AABBTree.build verts faces).rayCast verts faces ray maxDistance).distance ∧
      ((AABBTree.build verts faces).rayCast verts faces ray maxDistance).distance <
        maxDistance ∧
      (∃ n : ℕ, n < faces.length ∧
        ((AABBTree.build verts faces).rayCast verts faces ray
          maxDistance).triangleIndex = (n : ℤ)) ∧
      ((AABBTree.build verts faces).rayCast verts faces ray maxDistance).point =
        ray.origin.add (ray.direction.smul
          (((AABBTree.build verts faces).rayCast verts faces ray
            maxDistance).distance))) ∧
    (((AABBTree.build verts faces).rayCast verts faces ray maxDistance).hit = false →
      (AABBTree.build verts faces).rayCast verts faces ray maxDistance =
        RayHit.miss) := by
  have hmem : ∀ i ∈ (buildNode verts faces (List.range faces.length) 0).leafIndices,
      i < faces.length := by
    intro i hi
    have hperm := buildNode_leafIndices_perm verts faces (List.range faces.length) 0
    exact List.mem_range.mp (hperm.mem_iff.mp hi)
  have hP := rayCastNode_inv verts faces ray maxDistance
    (buildNode verts faces (List.range faces.length) 0) RayHit.miss hmem (Or.inl rfl)
  have hcast : (AABBTree.build verts faces).rayCast verts faces ray maxDistance =
      rayCastNode verts faces ray maxDistance
        (buildNode verts faces (List.range faces.length) 0) RayHit.miss := rfl
  rw [hcast]
  constructor
  · intro hh
    rcases hP with hmiss | hgood
    · rw [hmiss] at hh
      simp only [RayHit.miss] at hh
      exact (Bool.false_ne_true hh).elim
    · exact hgood.2
  · intro hh
    rcases hP with hmiss | hgood
    · exact hmiss
    · rw [hgood.1] at hh
      simp at hh

/-- Concrete mesh for the ray-cast witness: one triangle in the XY plane. -/
def w10verts : List (Vec3 ℝ) := [⟨0, 0, 0⟩, ⟨1, 0, 0⟩, ⟨0, 1, 0⟩]

/-- Its face list. -/
def w10faces : List Triangle := [⟨0, 1, 2⟩]

/-- A downward ray over the triangle's interior. -/
noncomputable def w10ray : Ray := ⟨⟨1/4, 1/4, 1⟩, ⟨0, 0, -1⟩⟩

/-- Witness for `c10_raycast_contract`: on the concrete one-triangle mesh the
downward ray records a hit, and the contract applies to it. -/
theorem c10_raycast_contract_witness :
    ((AABBTree.build w10verts w10faces).rayCast w10verts w10faces w10ray 10).hit = true ∧
    (1 / 10 ^ 6 <
      ((AABBTree.build w10verts w10faces).rayCast w10verts w10faces w10ray 10).distance ∧
    ((AABBTree.build w10verts w10faces).rayCast w10verts w10faces w10ray 10).distance < 10 ∧
    (∃ n : ℕ, n < w10faces.length ∧
      ((AABBTree.build w10verts w10faces).rayCast w10verts w10faces w10ray
        10).triangleIndex = (n : ℤ)) ∧
    ((AABBTree.build w10verts w10faces).rayCast w10verts w10faces w10ray 10).point =
      w10ray.origin.add (w10ray.direction.smul
        (((AABBTree.build w10verts w10faces).rayCast w10verts w10faces w10ray
          10).distance))) := by
  have hhit : ((AABBTree.build w10verts w10faces).rayCast w10verts w10faces
      w10ray 10).hit = true := by
    have hrange : List.range w10faces.length = [0] := by decide
    have hbox : computeBounds w10verts w10faces [0] = ⟨⟨0, 0, 0⟩, ⟨1, 1, 0⟩⟩ := by
      simp only [computeBounds, w10verts, w10faces, AABB.expand, AABB.initial,
        List.foldl_cons, List.foldl_nil, List.getD, dblMax]
      norm_num [min_def, max_def]
    have hleaf : buildNode w10verts w10faces [0] 0 =
        .leaf (⟨⟨0, 0, 0⟩, ⟨1, 1, 0⟩⟩ : AABB) [0] := by
      rw [buildNode]
      norm_num [hbox]
    have hx : slabAxis ((1:ℝ)/4) 0 0 1 (0, dblMax ℝ) = some (0, dblMax ℝ) := by
      unfold slabAxis
      rw [if_pos (by norm_num : |(0:ℝ)| < 1 / 10 ^ 8),
        if_neg (by norm_num : ¬((1:ℝ)/4 < 0 ∨ (1:ℝ)/4 > 1))]
    have hz : slabAxis (1:ℝ) (-1) 0 0 (0, dblMax ℝ) = some (1, 1) := by
      unfold slabAxis
      rw [if_neg (by norm_num : ¬|(-1:ℝ)| < 1 / 10 ^ 8)]
      norm_num [dblMax]
    have hslab : AABB.intersect ⟨⟨0, 0, 0⟩, ⟨1, 1, 0⟩⟩ w10ray = some (1, 1) := by
      unfold AABB.intersect
      simp only [w10ray]
      rw [hx]
      simp only [Option.some_bind]
      rw [hx]
      simp only [Option.some_bind]
      exact hz
    have hmt : intersectRayTriangle w10ray ⟨0, 0, 0⟩ ⟨1, 0, 0⟩ ⟨0, 1, 0⟩ = some 1 := by
      unfold intersectRayTriangle
      simp only [w10ray, Vec3.sub, Vec3.cross, Vec3.dot]
      norm_num
    have hupd : (mtUpdate w10verts w10faces w10ray 10 RayHit.miss 0).hit = true := by
      simp only [mtUpdate, w10verts, w10faces, List.getD, List.get?, Option.getD]
      rw [hmt]
      simp only []
      rw [if_pos ?hc]
      case hc =>
        refine ⟨?_, by norm_num, by norm_num⟩
        simp only [RayHit.miss, dblMax]
        norm_num
    show (rayCastNode w10verts w10faces w10ray 10
        (buildNode w10verts w10faces (List.range w10faces.length) 0) RayHit.miss).hit = true
    rw [hrange, hleaf, rayCastNode]
    rw [hslab]
    simp only []
    rw [if_neg ?hgate]
    case hgate =>
      simp only [RayHit.miss, dblMax]
      norm_num
    rw [List.foldl_cons, List.foldl_nil]
    exact hupd
  exact ⟨hhit, (c10_raycast_contract w10verts w10faces w10ray 10).1 hhit⟩

/-! ### Analyzer (Analyzer.hpp, Analyzer.cpp)

The `Analyzer` holds one `Mesh` and an optional `AABBTree`; its methods are
modelled as functions over that state `(mesh, spatialTree)`. -/

/-- `PrintabilityReport` (Analyzer.hpp lines 13-26). -/
structure PrintabilityReport where
  overhangArea : ℝ
  overhangPercentage : ℝ
  thinWallVertexCount : ℕ
  score : ℝ
  totalSurfaceArea : ℝ

/-- The `PrintabilityReport()` default constructor. -/
def PrintabilityReport.init : PrintabilityReport := ⟨0, 0, 0, 100, 0⟩

/-- `OrientationResult` (Analyzer.hpp lines 31-42). -/
structure OrientationResult where
  optimalUpVector : Vec3 ℝ
  originalOverhangArea : ℝ
  optimizedOverhangArea : ℝ
  improvementPercent : ℝ

/-- The `OrientationResult()` default constructor. -/
def OrientationResult.init : OrientationResult := ⟨⟨0, 0, 1⟩, 0, 0, 0⟩

/-- The source's `PI` constant (Analyzer.cpp line 309), a 20-decimal-digit
literal slightly below the real π. -/
def piConst : ℝ := 3.14159265358979323846

/-- The per-face body of the `analyzeOverhangs` loop (Analyzer.cpp lines
319-339): the state is `(overhangArea, totalSurfaceArea)`. -/
noncomputable def overhangStep (m : Mesh ℝ) (upVector : Vec3 ℝ)
    (cosThreshold : ℝ) (acc : ℝ × ℝ) (f : Triangle) : ℝ × ℝ :=
  let v0 := m.vertices.getD f.v0 ⟨0, 0, 0⟩
  let v1 := m.vertices.getD f.v1 ⟨0, 0, 0⟩
  let v2 := m.vertices.getD f.v2 ⟨0, 0, 0⟩
  let normal := calculateTriangleNormal v0 v1 v2
  let area := calculateTriangleArea v0 v1 v2
  ((if normal.dot upVector < -cosThreshold then acc.1 + area else acc.1),
    acc.2 + area)

/-- `Analyzer::analyzeOverhangs` (Analyzer.cpp lines 301-343): returns
`(overhangArea, totalSurfaceArea)` (`outTotalArea` is an out-parameter in the
source).  A face is an overhang iff `normal · up < -cos(θ_crit in radians)`. -/
noncomputable def analyzeOverhangs (m : Mesh ℝ) (upVector : Vec3 ℝ)
    (criticalAngleDegrees : ℝ) : ℝ × ℝ :=
  if m.vertices = [] then (0, 0)
  else
    m.faces.foldl
      (overhangStep m upVector (Real.cos (criticalAngleDegrees * piConst / 180)))
      (0, 0)

/-- The vertex-normal accumulation of the wall-thickness probe
(Analyzer.cpp lines 146-160): sum of incident face normals and the incident
face count. -/
noncomputable def vertexNormalSum (m : Mesh ℝ) (i : ℕ) : Vec3 ℝ × ℕ :=
  m.faces.foldl
    (fun acc f =>
      if f.v0 = i ∨ f.v1 = i ∨ f.v2 = i then
        (acc.1.add (calculateTriangleNormal
          (m.vertices.getD f.v0 ⟨0, 0, 0⟩)
          (m.vertices.getD f.v1 ⟨0, 0, 0⟩)
          (m.vertices.getD f.v2 ⟨0, 0, 0⟩)), acc.2 + 1)
      else acc)
    (⟨0, 0, 0⟩, 0)

/-- The wall-thickness probe of `Analyzer::getPrintabilityReport`
(Analyzer.cpp lines 136-178): stride the vertex array, cast a ray inward
from each sampled vertex, count hits closer than the minimum thickness. -/
noncomputable def thinWallProbe (m : Mesh ℝ) (tree : AABBTree)
    (minWallThicknessMM : ℝ) : ℕ :=
  let sampleRate := if m.vertices.length > 10000 then 10 else 1
  ((List.range m.vertices.length).filter (fun i => i % sampleRate = 0)).foldl
    (fun cnt i =>
      let vn := vertexNormalSum m i
      if 0 < vn.2 then
        let vertexNormal := vn.1.normalized
        let ray : Ray := ⟨(m.vertices.getD i ⟨0, 0, 0⟩).add (vertexNormal.smul 0.001),
          vertexNormal.smul (-1)⟩
        let hit := tree.rayCast m.vertices m.faces ray (minWallThicknessMM * 10)
        if hit.hit ∧ hit.distance < minWallThicknessMM then cnt + 1 else cnt
      else cnt)
    0

/-- `spatialTree && spatialTree->isBuilt()` (Analyzer.cpp line 136). -/
def treeIsBuilt (tree : Option AABBTree) : Bool :=
  match tree with
  | none => false
  | some t => t.root.isSome

/-- `Analyzer::getPrintabilityReport` (Analyzer.cpp lines 106-202). -/
noncomputable def getPrintabilityReport (m : Mesh ℝ) (tree : Option AABBTree)
    (criticalAngleDegrees minWallThicknessMM : ℝ) : PrintabilityReport :=
  if m.vertices = [] then PrintabilityReport.init
  else
    let scan := analyzeOverhangs m ⟨0, 0, 1⟩ criticalAngleDegrees
    let overhangArea := scan.1
    let totalSurfaceArea := scan.2
    let overhangPercentage :=
      if totalSurfaceArea > 0 then overhangArea / totalSurfaceArea * 100 else 0
    let thinWallVertexCount :=
      if treeIsBuilt tree then
        thinWallProbe m (tree.getD ⟨none⟩) minWallThicknessMM
      else 0
    let score0 := 100 - Min.min (overhangPercentage * 0.5) 50
    let score1 :=
      if 0 < m.vertices.length then
        score0 - Min.min (((thinWallVertexCount : ℝ) / (m.vertices.length : ℝ)) * 50) 50
      else score0
    ⟨overhangArea, overhangPercentage, thinWallVertexCount,
      Max.max 0 score1, totalSurfaceArea⟩

/-- `1.0 / std::sqrt(2.0)` (Analyzer.cpp line 233). -/
noncomputable def inv_sqrt2 : ℝ := 1 / Real.sqrt 2

/-- `1.0 / std::sqrt(3.0)` (Analyzer.cpp line 250). -/
noncomputable def inv_sqrt3 : ℝ := 1 / Real.sqrt 3

/-- The fixed 26-candidate up-vector list of `Analyzer::autoOrient`
(Analyzer.cpp lines 222-258): 6 cardinals, 12 edge directions, 8 corner
directions, in source order. -/
noncomputable def candidates : List (Vec3 ℝ) :=
  [⟨1, 0, 0⟩, ⟨-1, 0, 0⟩, ⟨0, 1, 0⟩, ⟨0, -1, 0⟩, ⟨0, 0, 1⟩, ⟨0, 0, -1⟩,
   (⟨inv_sqrt2, inv_sqrt2, 0⟩ : Vec3 ℝ).normalized,
   (⟨inv_sqrt2, -inv_sqrt2, 0⟩ : Vec3 ℝ).normalized,
   (⟨-inv_sqrt2, inv_sqrt2, 0⟩ : Vec3 ℝ).normalized,
   (⟨-inv_sqrt2, -inv_sqrt2, 0⟩ : Vec3 ℝ).normalized,
   (⟨inv_sqrt2, 0, inv_sqrt2⟩ : Vec3 ℝ).normalized,
   (⟨inv_sqrt2, 0, -inv_sqrt2⟩ : Vec3 ℝ).normalized,
   (⟨-inv_sqrt2, 0, inv_sqrt2⟩ : Vec3 ℝ).normalized,
   (⟨-inv_sqrt2, 0, -inv_sqrt2⟩ : Vec3 ℝ).normalized,
   (⟨0, inv_sqrt2, inv_sqrt2⟩ : Vec3 ℝ).normalized,
   (⟨0, inv_sqrt2, -inv_sqrt2⟩ : Vec3 ℝ).normalized,
   (⟨0, -inv_sqrt2, inv_sqrt2⟩ : Vec3 ℝ).normalized,
   (⟨0, -inv_sqrt2, -inv_sqrt2⟩ : Vec3 ℝ).normalized,
   (⟨inv_sqrt3, inv_sqrt3, inv_sqrt3⟩ : Vec3 ℝ).normalized,
   (⟨inv_sqrt3, inv_sqrt3, -inv_sqrt3⟩ : Vec3 ℝ).normalized,
   (⟨inv_sqrt3, -inv_sqrt3, inv_sqrt3⟩ : Vec3 ℝ).normalized,
   (⟨inv_sqrt3, -inv_sqrt3, -inv_sqrt3⟩ : Vec3 ℝ).normalized,
   (⟨-inv_sqrt3, inv_sqrt3, inv_sqrt3⟩ : Vec3 ℝ).normalized,
   (⟨-inv_sqrt3, inv_sqrt3, -inv_sqrt3⟩ : Vec3 ℝ).normalized,
   (⟨-inv_sqrt3, -inv_sqrt3, inv_sqrt3⟩ : Vec3 ℝ).normalized,
   (⟨-inv_sqrt3, -inv_sqrt3, -inv_sqrt3⟩ : Vec3 ℝ).normalized]

/-- One step of the best-orientation search (Analyzer.cpp lines 266-274):
the state is `(bestUpVector, bestOverhangArea)`. -/
noncomputable def orientStep (m : Mesh ℝ) (criticalAngleDegrees : ℝ)
    (b : Vec3 ℝ × ℝ) (c : Vec3 ℝ) : Vec3 ℝ × ℝ :=
  let overhangArea := (analyzeOverhangs m c criticalAngleDegrees).1
  if overhangArea < b.2 then (c, overhangArea) else b

set_option linter.unusedVariables false in
/-- `Analyzer::autoOrient` (Analyzer.cpp lines 208-295).  Note that the
source never reads `sampleResolution`: all 26 candidates are always tested. -/
noncomputable def autoOrient (m : Mesh ℝ) (sampleResolution : ℤ)
    (criticalAngleDegrees : ℝ) : OrientationResult :=
  if m.vertices = [] then OrientationResult.init
  else
    let originalUpVector : Vec3 ℝ := ⟨0, 0, 1⟩
    let originalOverhangArea :=
      (analyzeOverhangs m originalUpVector criticalAngleDegrees).1
    let best := candidates.foldl (orientStep m criticalAngleDegrees)
      (originalUpVector, originalOverhangArea)
    ⟨best.1, originalOverhangArea, best.2,
      if originalOverhangArea > 0 then
        (originalOverhangArea - best.2) / originalOverhangArea * 100
      else 0⟩

/-- Modelled from the spec: `autoOrient` as the specification describes it —
"The `resolution` parameter selects how many to use (default full 26); values
smaller than 26 take a prefix in the order listed".  Identical to `autoOrient`
except that only the first `sampleResolution` candidates are folded over. -/
noncomputable def autoOrientSpecResolution (m : Mesh ℝ) (sampleResolution : ℤ)
    (criticalAngleDegrees : ℝ) : OrientationResult :=
  if m.vertices = [] then OrientationResult.init
  else
    let originalUpVector : Vec3 ℝ := ⟨0, 0, 1⟩
    let originalOverhangArea :=
      (analyzeOverhangs m originalUpVector criticalAngleDegrees).1
    let best := (candidates.take sampleResolution.toNat).foldl
      (orientStep m criticalAngleDegrees) (originalUpVector, originalOverhangArea)
    ⟨best.1, originalOverhangArea, best.2,
      if originalOverhangArea > 0 then
        (originalOverhangArea - best.2) / originalOverhangArea * 100
      else 0⟩

/-! ### Area nonnegativity and fold lemmas for the analyzer -/

theorem calculateTriangleArea_nonneg (v0 v1 v2 : Vec3 ℝ) :
    0 ≤ calculateTriangleArea v0 v1 v2 := by
  unfold calculateTriangleArea Vec3.length
  positivity

theorem overhangStep_fst_nonneg (m : Mesh ℝ) (up : Vec3 ℝ) (ct : ℝ)
    (acc : ℝ × ℝ) (f : Triangle) (h : 0 ≤ acc.1) :
    0 ≤ (overhangStep m up ct acc f).1 := by
  unfold overhangStep
  simp only
  split
  · exact add_nonneg h (calculateTriangleArea_nonneg _ _ _)
  · exact h

theorem foldl_overhangStep_fst_nonneg (m : Mesh ℝ) (up : Vec3 ℝ) (ct : ℝ) :
    ∀ (l : List Triangle) (acc : ℝ × ℝ), 0 ≤ acc.1 →
      0 ≤ (l.foldl (overhangStep m up ct) acc).1 := by
  intro l
  induction l with
  | nil => intro acc h; exact h
  | cons f l ih =>
    intro acc h
    rw [List.foldl_cons]
    exact ih _ (overhangStep_fst_nonneg m up ct acc f h)

theorem analyzeOverhangs_fst_nonneg (m : Mesh ℝ) (up : Vec3 ℝ) (θ : ℝ) :
    0 ≤ (analyzeOverhangs m up θ).1 := by
  unfold analyzeOverhangs
  split
  · norm_num
  · exact foldl_overhangStep_fst_nonneg m up _ m.faces (0, 0) le_rfl

theorem foldl_orientStep_le (m : Mesh ℝ) (θ : ℝ) :
    ∀ (cs : List (Vec3 ℝ)) (b : Vec3 ℝ × ℝ),
      (cs.foldl (orientStep m θ) b).2 ≤ b.2 ∧
      ∀ c ∈ cs, (cs.foldl (orientStep m θ) b).2 ≤ (analyzeOverhangs m c θ).1 := by
  intro cs
  induction cs with
  | nil => intro b; exact ⟨le_rfl, by simp⟩
  | cons c cs ih =>
    intro b
    rw [List.foldl_cons]
    have hstep : (orientStep m θ b c).2 ≤ b.2 ∧
        (orientStep m θ b c).2 ≤ (analyzeOverhangs m c θ).1 := by
      unfold orientStep
      simp only
      split
      · next hlt => exact ⟨le_of_lt hlt, le_rfl⟩
      · next hge => exact ⟨le_rfl, le_of_not_lt hge⟩
    refine ⟨(ih _).1.trans hstep.1, ?_⟩
    intro d hd
    rcases List.mem_cons.mp hd with hdc | hdcs
    · subst hdc
      exact (ih _).1.trans hstep.2
    · exact (ih _).2 d hdcs

theorem foldl_orientStep_zero (m : Mesh ℝ) (θ : ℝ)
    (cs : List (Vec3 ℝ)) (v : Vec3 ℝ) :
    cs.foldl (orientStep m θ) (v, 0) = (v, 0) := by
  induction cs with
  | nil => rfl
  | cons c cs ih =>
    rw [List.foldl_cons]
    have hstep : orientStep m θ (v, 0) c = (v, 0) := by
      unfold orientStep
      simp only
      rw [if_neg (not_lt.mpr (analyzeOverhangs_fst_nonneg m c θ))]
    rw [hstep, ih]

/-! ### Claim C9: autoOrient minimizes over the tested set -/

/-- Claim C9: for a non-empty mesh, `autoOrient` records a candidate whose
overhang area is a minimum over the tested set (the Z-up baseline and every
candidate), so `optimizedOverhangArea ≤ originalOverhangArea`; the
improvement percent is `(orig - opt)/orig · 100` when the baseline overhang
is positive and `0` when it is zero. -/
theorem c9_autoorient_minimum (m : Mesh ℝ) (sampleResolution : ℤ) (θ : ℝ)
    (hne : m.vertices ≠ []) :
    (autoOrient m sampleResolution θ).optimizedOverhangArea ≤
      (autoOrient m sampleResolution θ).originalOverhangArea ∧
    (∀ c ∈ candidates, (autoOrient m sampleResolution θ).optimizedOverhangArea ≤
      (analyzeOverhangs m c θ).1) ∧
    (0 < (autoOrient m sampleResolution θ).originalOverhangArea →
      (autoOrient m sampleResolution θ).improvementPercent =
        ((autoOrient m sampleResolution θ).originalOverhangArea -
          (autoOrient m sampleResolution θ).optimizedOverhangArea) /
          (autoOrient m sampleResolution θ).originalOverhangArea * 100) ∧
    ((autoOrient m sampleResolution θ).originalOverhangArea = 0 →
      (autoOrient m sampleResolution θ).improvementPercent = 0) := by
  have hfold := foldl_orientStep_le m θ candidates
    (⟨0, 0, 1⟩, (analyzeOverhangs m ⟨0, 0, 1⟩ θ).1)
  simp only [autoOrient, if_neg hne]
  refine ⟨hfold.1, hfold.2, ?_, ?_⟩
  · intro hpos
    rw [if_pos hpos]
  · intro hzero
    rw [if_neg (by rw [hzero]; exact lt_irrefl 0)]

/-- Concrete mesh shared by the orientation claims: a single triangle in the
XY plane with outward normal `(0,0,-1)` and area 2. -/
def c3mesh : Mesh ℝ := ⟨[⟨0, 0, 0⟩, ⟨0, 2, 0⟩, ⟨2, 0, 0⟩], [⟨0, 1, 2⟩]⟩

/-- Witness for `c9_autoorient_minimum` on the concrete mesh. -/
theorem c9_autoorient_minimum_witness :
    c3mesh.vertices ≠ [] ∧
    (autoOrient c3mesh 26 45).optimizedOverhangArea ≤
      (autoOrient c3mesh 26 45).originalOverhangArea :=
  ⟨by simp [c3mesh], (c9_autoorient_minimum c3mesh 26 45 (by simp [c3mesh])).1⟩

/-! ### Claim C5: printability score formula and bounds -/

/-- Claim C5: the report's score equals
`clamp₍₀,₁₀₀₎ (100 - min(overhangPercentage·0.5, 50) - min(thinWallRatio·50, 50))`
with `thinWallRatio = thinWallVertexCount / |vertices|`, and in particular
`0 ≤ score ≤ 100` for every report returned. -/
theorem c5_score_formula (m : Mesh ℝ) (tree : Option AABBTree) (θ tmin : ℝ) :
    (getPrintabilityReport m tree θ tmin).score =
      Max.max 0 (Min.min 100 (100 -
        Min.min ((getPrintabilityReport m tree θ tmin).overhangPercentage * 0.5) 50 -
        Min.min ((((getPrintabilityReport m tree θ tmin).thinWallVertexCount : ℝ) /
          (m.vertices.length : ℝ)) * 50) 50)) ∧
    0 ≤ (getPrintabilityReport m tree θ tmin).score ∧
    (getPrintabilityReport m tree θ tmin).score ≤ 100 := by
  by_cases hm : m.vertices = []
  · simp only [getPrintabilityReport, if_pos hm, PrintabilityReport.init, hm]
    norm_num
  · have hlen : 0 < m.vertices.length := List.length_pos.mpr hm
    simp only [getPrintabilityReport, if_neg hm, if_pos hlen]
    set pct := if (analyzeOverhangs m ⟨0, 0, 1⟩ θ).2 > 0 then
        (analyzeOverhangs m ⟨0, 0, 1⟩ θ).1 / (analyzeOverhangs m ⟨0, 0, 1⟩ θ).2 * 100
      else 0 with hpct
    set cnt := if treeIsBuilt tree = true then
        thinWallProbe m (tree.getD ⟨none⟩) tmin else 0 with hcnt
    have hpct0 : 0 ≤ pct := by
      rw [hpct]
      split
      · next hgt =>
        have := analyzeOverhangs_fst_nonneg m ⟨0, 0, 1⟩ θ
        positivity
      · exact le_rfl
    have hp1 : 0 ≤ Min.min (pct * 0.5) 50 :=
      le_min (by positivity) (by norm_num)
    have hp2 : 0 ≤ Min.min (((cnt : ℝ) / (m.vertices.length : ℝ)) * 50) 50 :=
      le_min (by positivity) (by norm_num)
    have hle : 100 - Min.min (pct * 0.5) 50 -
        Min.min (((cnt : ℝ) / (m.vertices.length : ℝ)) * 50) 50 ≤ 100 := by
      linarith
    refine ⟨?_, le_max_left 0 _, max_le (by norm_num) hle⟩
    rw [min_eq_right hle]

/-! ### Claim C3: the resolution parameter is ignored -/

theorem c3_normal_eval :
    calculateTriangleNormal ⟨0, 0, 0⟩ ⟨0, 2, 0⟩ ⟨2, 0, 0⟩ = (⟨0, 0, -1⟩ : Vec3 ℝ) := by
  unfold calculateTriangleNormal Vec3.normalized Vec3.length
  simp only [Vec3.sub, Vec3.cross]
  norm_num
  rw [show (16 : ℝ) = 4 ^ 2 by norm_num, Real.sqrt_sq (by norm_num : (0:ℝ) ≤ 4)]
  rw [if_neg (by norm_num : ¬(4 : ℝ) < 1 / 10000000000)]
  norm_num

theorem c3_area_eval :
    calculateTriangleArea ⟨0, 0, 0⟩ ⟨0, 2, 0⟩ ⟨2, 0, 0⟩ = (2 : ℝ) := by
  unfold calculateTriangleArea Vec3.length
  simp only [Vec3.sub, Vec3.cross]
  norm_num
  rw [show (16 : ℝ) = 4 ^ 2 by norm_num, Real.sqrt_sq (by norm_num : (0:ℝ) ≤ 4)]
  norm_num

theorem c3_cos_lt_one : Real.cos (45 * piConst / 180) < 1 := by
  have h1 : (0 : ℝ) < 45 * piConst / 180 := by unfold piConst; norm_num
  have h2 : 45 * piConst / 180 ≤ Real.pi := by
    have := Real.pi_gt_d6
    unfold piConst
    norm_num
    linarith
  calc Real.cos (45 * piConst / 180) < Real.cos 0 :=
        Real.cos_lt_cos_of_nonneg_of_le_pi le_rfl h2 h1
    _ = 1 := Real.cos_zero

theorem c3_cos_nonneg : 0 ≤ Real.cos (45 * piConst / 180) := by
  have := Real.pi_gt_d6
  apply Real.cos_nonneg_of_mem_Icc
  constructor
  · unfold piConst
    norm_num
    linarith
  · unfold piConst
    norm_num
    linarith

theorem c3_overhang_zup :
    analyzeOverhangs c3mesh ⟨0, 0, 1⟩ 45 = ((2 : ℝ), (2 : ℝ)) := by
  unfold analyzeOverhangs
  rw [if_neg (by simp [c3mesh])]
  simp only [c3mesh, List.foldl_cons, List.foldl_nil]
  unfold overhangStep
  simp only [List.getD, List.get?, Option.getD]
  rw [c3_normal_eval, c3_area_eval]
  rw [if_pos ?hcond]
  case hcond =>
    simp only [Vec3.dot]
    have := c3_cos_lt_one
    norm_num
    linarith
  norm_num

theorem c3_overhang_xup :
    analyzeOverhangs c3mesh ⟨1, 0, 0⟩ 45 = ((0 : ℝ), (2 : ℝ)) := by
  unfold analyzeOverhangs
  rw [if_neg (by simp [c3mesh])]
  simp only [c3mesh, List.foldl_cons, List.foldl_nil]
  unfold overhangStep
  simp only [List.getD, List.get?, Option.getD]
  rw [c3_normal_eval, c3_area_eval]
  rw [if_neg ?hcond]
  case hcond =>
    simp only [Vec3.dot]
    have := c3_cos_nonneg
    norm_num
    linarith
  norm_num

/-- Claim C3 is false of the code: `autoOrient` never reads its
`sampleResolution` parameter (contradicting the header's own documentation,
"Number of test orientations") and always evaluates all 26 candidates.  On a
single downward-facing triangle with `sampleResolution = 0` the source finds
the first candidate `(1,0,0)` with overhang area 0, whereas the documented
prefix semantics would test no candidate and return the Z-up baseline area 2. -/
theorem c3_resolution_unused :
    (autoOrient c3mesh 0 45).optimizedOverhangArea = 0 ∧
    (autoOrientSpecResolution c3mesh 0 45).optimizedOverhangArea = 2 ∧
    autoOrient c3mesh 0 45 ≠ autoOrientSpecResolution c3mesh 0 45 := by
  have hne : ¬(c3mesh.vertices = []) := by simp [c3mesh]
  have hfirst : orientStep c3mesh 45 (⟨0, 0, 1⟩, (analyzeOverhangs c3mesh ⟨0, 0, 1⟩ 45).1)
      (⟨1, 0, 0⟩ : Vec3 ℝ) = ((⟨1, 0, 0⟩ : Vec3 ℝ), 0) := by
    unfold orientStep
    rw [c3_overhang_xup, c3_overhang_zup]
    simp only
    rw [if_pos (by norm_num)]
  have hopt : (autoOrient c3mesh 0 45).optimizedOverhangArea = 0 := by
    simp only [autoOrient, if_neg hne]
    rw [candidates, List.foldl_cons, hfirst, foldl_orientStep_zero]
  have hspec : (autoOrientSpecResolution c3mesh 0 45).optimizedOverhangArea = 2 := by
    simp only [autoOrientSpecResolution, if_neg hne]
    rw [show Int.toNat 0 = 0 from rfl, List.take_zero, List.foldl_nil,
      c3_overhang_zup]
  refine ⟨hopt, hspec, ?_⟩
  intro heq
  rw [show (autoOrient c3mesh 0 45).optimizedOverhangArea =
    (autoOrientSpecResolution c3mesh 0 45).optimizedOverhangArea from by rw [heq]] at hopt
  rw [hspec] at hopt
  norm_num at hopt
